import Mathlib

/-!
Shallow embedding of the ghosthire consolidation core
(`src/models.py`, `src/utils/deduplication.py`, `src/utils/hidden_score.py`,
`src/utils/location_validator.py`, `src/scrapers/hn_scraper.py`) and proofs
about it.

Modelling conventions:
* Python `str` is modelled as `List Nat` (one entry per character code point);
  `enc` converts a Lean string literal into this representation.
* `str.lower` / `str.upper` / `str.strip` / `str.split` / `str.title` are
  modelled character-exactly for the ASCII range the heuristics work over.
* `datetime` values are modelled as `Int` timestamps counted in seconds
  (`timedelta(hours=24)` = 86400 and so on); `datetime.now()` becomes an
  explicit `now` parameter.
* `hashlib.md5(...).hexdigest()` is modelled as an injective function on the
  hashed key; we take the identity function on the key, i.e. md5 is treated
  as collision-free.
* `rapidfuzz.fuzz.ratio` is the normalized indel similarity
  `200 * lcs(a, b) / (|a| + |b|)` (with `100` for two empty strings); it is
  modelled over `ℚ`, so the floating-point arithmetic of the library is
  modelled as exact arithmetic.
-/

/-- A Python string: the list of its character code points. -/
abbrev Str := List Nat

/-- Encode a Lean string literal as a `Str`. -/
def enc (s : String) : Str := s.data.map Char.toNat

/-- ASCII lower-casing of one character, as Python `str.lower` acts on it. -/
def lowerChar (c : Nat) : Nat := if 65 ≤ c ∧ c ≤ 90 then c + 32 else c

/-- ASCII upper-casing of one character, as Python `str.upper` acts on it. -/
def upperChar (c : Nat) : Nat := if 97 ≤ c ∧ c ≤ 122 then c - 32 else c

/-- Whitespace test used by Python `str.strip` / `str.split` (ASCII range). -/
def isSpaceChar (c : Nat) : Bool := decide (c = 32 ∨ c = 9 ∨ c = 10 ∨ c = 13 ∨ c = 11 ∨ c = 12)

/-- ASCII decimal digit test (`re.search(r'\d', ...)` on the ASCII range). -/
def isDigitChar (c : Nat) : Bool := decide (48 ≤ c ∧ c ≤ 57)

/-- ASCII letter test (Python `str.isalpha` on the ASCII range). -/
def isAlphaChar (c : Nat) : Bool := decide ((65 ≤ c ∧ c ≤ 90) ∨ (97 ≤ c ∧ c ≤ 122))

/-- Python `s.lower()`. -/
def pyLower (s : Str) : Str := s.map lowerChar

/-- Python `s.upper()`. -/
def pyUpper (s : Str) : Str := s.map upperChar

/-- Python `s.strip()`: drop whitespace from both ends. -/
def pyStrip (s : Str) : Str :=
  ((s.dropWhile isSpaceChar).reverse.dropWhile isSpaceChar).reverse

/-- Worker for `pySplit`; `acc` holds the current word, reversed. -/
def splitGo : List Nat → List Nat → List Str
  | [], acc => if acc = [] then [] else [acc.reverse]
  | c :: cs, acc =>
      if isSpaceChar c then
        if acc = [] then splitGo cs [] else acc.reverse :: splitGo cs []
      else splitGo cs (c :: acc)

/-- Python `s.split()`: split on whitespace runs, discarding empty words. -/
def pySplit (s : Str) : List Str := splitGo s []

/-- Worker for `pyTitle`; the flag records whether the previous character was
a letter. -/
def titleGo : Bool → Str → Str
  | _, [] => []
  | prevAlpha, c :: cs =>
      (if isAlphaChar c then (if prevAlpha then lowerChar c else upperChar c) else c)
        :: titleGo (isAlphaChar c) cs

/-- Python `s.title()`: first letter of every word upper-cased, the rest
lower-cased. -/
def pyTitle (s : Str) : Str := titleGo false s

/-- Python substring test `needle in haystack`. -/
def strContains (haystack needle : Str) : Bool := decide (needle <:+: haystack)

/-- Python `haystack.startswith(needle)`. -/
def strStartsWith (haystack needle : Str) : Bool := decide (needle <+: haystack)

-- Character-level facts about the case maps.

theorem isSpaceChar_lowerChar (c : Nat) : isSpaceChar (lowerChar c) = isSpaceChar c := by
  unfold lowerChar
  split
  · unfold isSpaceChar; rw [decide_eq_decide]; omega
  · rfl

theorem lowerChar_upperChar (c : Nat) : lowerChar (upperChar c) = lowerChar c := by
  unfold lowerChar upperChar
  split <;> split <;> (try split) <;> omega

theorem pyLower_pyUpper (s : Str) : pyLower (pyUpper s) = pyLower s := by
  induction s with
  | nil => rfl
  | cons c cs ih =>
      simp only [pyLower, pyUpper, List.map_cons] at *
      rw [lowerChar_upperChar]
      exact congrArg _ (by simpa [pyLower, pyUpper] using ih)

theorem pyLower_dropWhile (s : Str) :
    (pyLower s).dropWhile isSpaceChar = pyLower (s.dropWhile isSpaceChar) := by
  unfold pyLower
  rw [List.dropWhile_map]
  rw [show isSpaceChar ∘ lowerChar = isSpaceChar from funext isSpaceChar_lowerChar]

theorem lowerChar_idem (c : Nat) : lowerChar (lowerChar c) = lowerChar c := by
  unfold lowerChar
  split <;> (try split) <;> omega

theorem pyLower_idem (s : Str) : pyLower (pyLower s) = pyLower s := by
  simp only [pyLower, List.map_map]
  apply List.map_congr_left
  intro c _
  exact lowerChar_idem c

/-- `lower` and `strip` commute: Python `s.lower().strip() == s.strip().lower()`. -/
theorem pyStrip_pyLower (s : Str) : pyStrip (pyLower s) = pyLower (pyStrip s) := by
  unfold pyStrip
  rw [pyLower_dropWhile]
  rw [show (pyLower (s.dropWhile isSpaceChar)).reverse
        = pyLower (s.dropWhile isSpaceChar).reverse by simp [pyLower]]
  rw [pyLower_dropWhile]
  simp [pyLower]

/-- `src/models.py` — the `JobPosting` dataclass. -/
structure JobPosting where
  company : Str
  title : Str
  location : Option Str
  tech_stack : List Str
  raw_text : Str
  source : Str
  source_url : Str
  scraped_at : Int
  comment_id : Option Str
  url : Option Str
  posted_date : Option Int
  hidden_score : Option Int
deriving DecidableEq

/-- `hashlib.md5(combined.encode()).hexdigest()`, modelled as an injective
function of the hashed key: we take the identity on the key (md5 is treated
as collision-free). -/
def md5_hexdigest (s : Str) : Str := s

/-- The normalized company used throughout: `company.lower().strip()`. -/
def normCompany (j : JobPosting) : Str := pyStrip (pyLower j.company)

/-- The normalized title used throughout: `title.lower().strip()`. -/
def normTitle (j : JobPosting) : Str := pyStrip (pyLower j.title)

/-- `JobPosting.generate_id` (`src/models.py` lines 24-27): md5 hex digest of
`f"{company.lower().strip()}|{title.lower().strip()}"` (`124` is `'|'`). -/
def generate_id (j : JobPosting) : Str :=
  md5_hexdigest (normCompany j ++ [124] ++ normTitle j)

/-- **C4** — The identity fingerprint is case-insensitive and deterministic:
`generate_id` computed after upper-casing company and title equals
`generate_id` of the original record, and both equal the stable hash of
`lowercase(trim(company)) ++ "|" ++ lowercase(trim(title))`.  (Determinism
across repeated calls is immediate: `generate_id` is a pure function of the
record.) -/
theorem claim4_fingerprint (j : JobPosting) :
    generate_id { j with company := pyUpper j.company, title := pyUpper j.title }
        = generate_id j
    ∧ generate_id j
        = md5_hexdigest (pyLower (pyStrip j.company) ++ [124] ++ pyLower (pyStrip j.title)) := by
  constructor
  · simp only [generate_id, normCompany, normTitle, pyLower_pyUpper]
  · simp only [generate_id, normCompany, normTitle, pyStrip_pyLower]

/-- Python truthy-or on an optional string and a fallback:
`a or b` where `a` may be `None` or empty. -/
def truthyOr (a : Option Str) (b : Str) : Str :=
  match a with
  | none => b
  | some s => if s = [] then b else s

/-- The dictionary shape produced by `JobPosting.to_dict` and consumed by
`JobPosting.from_dict` (`src/models.py`).  Every key that `from_dict` reads
with `dict.get` is optional here, `none` standing for an absent key (or a
JSON `null`, which `dict.get` treats the same way for these fields).
ISO-8601 date strings are modelled by the timestamp they denote, i.e.
`datetime.fromisoformat ∘ datetime.isoformat = id` is built in. -/
structure JobDict where
  id : Option Str
  company : Str
  title : Str
  location : Option Str
  tech_stack : Option (List Str)
  raw_text : Option Str
  source : Option Str
  source_url : Option Str
  scraped_at : Option Int
  comment_id : Option Str
  url : Option Str
  posted_date : Option Int
  hidden_score : Option Int
deriving DecidableEq

/-- `JobPosting.to_dict` (`src/models.py` lines 29-42): the unified
serialization format.  The keys `raw_text`, `source_url`, `scraped_at` and
`comment_id` are not written. -/
def to_dict (j : JobPosting) : JobDict where
  id := some (generate_id j)
  company := j.company
  title := j.title
  location := j.location
  tech_stack := some j.tech_stack
  raw_text := none
  source := some (if j.source = [] then enc "unknown" else pyLower j.source)
  source_url := none
  scraped_at := none
  comment_id := none
  url := some (truthyOr j.url j.source_url)
  posted_date := some (j.posted_date.getD j.scraped_at)
  hidden_score := some (j.hidden_score.getD 0)

/-- `JobPosting.from_dict` (`src/models.py` lines 44-64).  Returns `none`
when both `scraped_at` and `posted_date` are missing, in which case the
Python code raises from `datetime.fromisoformat(None)`. -/
def from_dict (data : JobDict) : Option JobPosting :=
  match (match data.scraped_at with | some t => some t | none => data.posted_date) with
  | none => none
  | some sa =>
      some
        { company := data.company
          title := data.title
          location := data.location
          tech_stack := data.tech_stack.getD []
          raw_text := data.raw_text.getD []
          source := data.source.getD (enc "unknown")
          source_url := data.source_url.getD (data.url.getD [])
          scraped_at := sa
          comment_id := data.comment_id
          url := data.url
          posted_date := data.posted_date
          hidden_score := data.hidden_score }

/-- **C5 counterexample** — deserialization is not the inverse of
serialization: a record whose `raw_text` is non-empty is not reconstructed
(its `raw_text` comes back empty, among other normalizations). -/
theorem claim5_counterexample :
    (let j : JobPosting :=
      { company := enc "Acme", title := enc "Dev", location := none, tech_stack := []
        raw_text := enc "x", source := enc "hn", source_url := enc "u", scraped_at := 0
        comment_id := none, url := none, posted_date := none, hidden_score := none }
     from_dict (to_dict j) ≠ some j) := by
  decide

/-- **C5 (amended)** — `from_dict (to_dict j)` reconstructs `company`,
`title`, `location` and `tech_stack` exactly, and substitutes the missing
`scraped_at` key with the serialized `posted_date` (which is
`posted_date`-else-`scraped_at`); the remaining fields are normalized rather
than restored: `raw_text` becomes empty, `comment_id` becomes `None`,
`source` is lower-cased (`"unknown"` when empty), `url` and `source_url`
both become `url`-else-`source_url`, `posted_date` becomes
`posted_date`-else-`scraped_at`, and `hidden_score` becomes `0` when unset. -/
theorem claim5_roundtrip (j : JobPosting) :
    from_dict (to_dict j)
      = some
          { company := j.company
            title := j.title
            location := j.location
            tech_stack := j.tech_stack
            raw_text := []
            source := if j.source = [] then enc "unknown" else pyLower j.source
            source_url := truthyOr j.url j.source_url
            scraped_at := j.posted_date.getD j.scraped_at
            comment_id := none
            url := some (truthyOr j.url j.source_url)
            posted_date := some (j.posted_date.getD j.scraped_at)
            hidden_score := some (j.hidden_score.getD 0) } := by
  simp [to_dict, from_dict]

/-- Python `dict.get(key, default)` over an association list. -/
def dictGet (table : List (Str × Int)) (key : Str) (dflt : Int) : Int :=
  match table with
  | [] => dflt
  | (k, v) :: rest => if k = key then v else dictGet rest key dflt

/-- The `source_weights` table of `calculate_hidden_score`
(`src/utils/hidden_score.py` lines 24-36); `[39]` is the apostrophe. -/
def source_weights : List (Str × Int) :=
  [ (enc "hn", 90)
  , (enc "hn who" ++ [39] ++ enc "s hiring", 90)
  , (enc "hackernews", 90)
  , (enc "yc", 80)
  , (enc "ycombinator", 80)
  , (enc "wellfound", 70)
  , (enc "angellist", 70)
  , (enc "remoteok", 60)
  , (enc "weworkremotely", 50)
  , (enc "github jobs", 40)
  , (enc "stackoverflow", 30) ]

/-- `calculate_hidden_score` (`src/utils/hidden_score.py` lines 5-67).
`now` stands for `datetime.now()` (called twice in the source; both calls are
modelled as the same instant); timestamps are in seconds, so 24 hours =
86400, 7 days = 604800, 14 days = 1209600. -/
def calculate_hidden_score (source : Str) (posted_date scraped_at : Option Int)
    (now : Int) : Int :=
  let source_lower := pyStrip (pyLower source)
  let base_score := dictGet source_weights source_lower 20
  let date_to_check :=
    match posted_date with
    | some d => d
    | none => match scraped_at with | some d => d | none => now
  let age := now - date_to_check
  let recency_bonus : Int :=
    if age ≤ 86400 then 10
    else if age ≤ 604800 then 5
    else if age ≤ 1209600 then 0
    else 0
  min (base_score + recency_bonus) 100

/-- Modelled from the spec (§4.3): the recency bonus in the spec's words —
+10 if age ≤ 24h, +5 if age ≤ 7 days, and 0 otherwise, with the reference
date being `postedDate` if present, else `scrapedAt`, else `now`. -/
def specRecencyBonus (posted_date scraped_at : Option Int) (now : Int) : Int :=
  let ref := posted_date.getD (scraped_at.getD now)
  if now - ref ≤ 86400 then 10 else if now - ref ≤ 604800 then 5 else 0

theorem dictGet_lower_bound (table : List (Str × Int)) (key : Str) (dflt : Int)
    (b : Int) (ht : ∀ p ∈ table, b ≤ p.2) (hd : b ≤ dflt) :
    b ≤ dictGet table key dflt := by
  induction table with
  | nil => exact hd
  | cons p rest ih =>
      obtain ⟨k, v⟩ := p
      simp only [dictGet]
      split
      · exact ht (k, v) (List.mem_cons_self _ _)
      · exact ih fun q hq => ht q (List.mem_cons_of_mem _ hq)

/-- **C3** — `calculate_hidden_score` returns `min(base + bonus, 100)` where
`base` is the source-trust table entry for the lowercased, trimmed source
(default 20) and `bonus` is +10 for age ≤ 24h, +5 for age ≤ 7 days and 0
otherwise (reference date: `postedDate`, else `scrapedAt`, else `now`); the
result always lies in [0, 100]. -/
theorem claim3_hidden_score (source : Str) (posted_date scraped_at : Option Int)
    (now : Int) :
    calculate_hidden_score source posted_date scraped_at now
        = min (dictGet source_weights (pyStrip (pyLower source)) 20
                + specRecencyBonus posted_date scraped_at now) 100
    ∧ 0 ≤ calculate_hidden_score source posted_date scraped_at now
    ∧ calculate_hidden_score source posted_date scraped_at now ≤ 100 := by
  have hbase : (20 : Int) ≤ dictGet source_weights (pyStrip (pyLower source)) 20 := by
    apply dictGet_lower_bound
    · intro p hp
      fin_cases hp <;> norm_num
    · exact le_refl 20
  refine ⟨?_, ?_, ?_⟩
  · unfold calculate_hidden_score specRecencyBonus
    cases posted_date <;> cases scraped_at <;> simp [Option.getD] <;> split_ifs <;> omega
  · unfold calculate_hidden_score
    cases posted_date <;> cases scraped_at <;> simp only [] <;> split_ifs <;> omega
  · unfold calculate_hidden_score
    cases posted_date <;> cases scraped_at <;> simp only [] <;> split_ifs <;> omega

/-- `VALID_LOCATIONS` (`src/utils/location_validator.py` lines 6-44); the
Python set is modelled as a list, membership being all that is used. -/
def VALID_LOCATIONS : List Str :=
  [ enc "remote", enc "onsite", enc "hybrid", enc "anywhere"
  , enc "san francisco", enc "sf", enc "bay area", enc "silicon valley"
  , enc "palo alto", enc "mountain view"
  , enc "new york", enc "nyc", enc "manhattan", enc "brooklyn"
  , enc "seattle", enc "austin", enc "boston", enc "chicago", enc "los angeles", enc "la"
  , enc "denver", enc "portland", enc "atlanta", enc "miami", enc "philadelphia", enc "dallas"
  , enc "san diego", enc "washington dc", enc "dc", enc "boulder", enc "raleigh", enc "durham"
  , enc "minneapolis", enc "detroit", enc "phoenix", enc "tucson", enc "nashville", enc "memphis"
  , enc "indianapolis", enc "columbus", enc "cincinnati", enc "kansas city", enc "omaha"
  , enc "salt lake city", enc "las vegas", enc "orlando", enc "tampa"
  , enc "ca", enc "ny", enc "wa", enc "tx", enc "ma", enc "il", enc "co", enc "or"
  , enc "ga", enc "fl", enc "pa"
  , enc "nc", enc "sc", enc "tn", enc "mi", enc "oh", enc "in", enc "mo", enc "nv"
  , enc "az", enc "ut"
  , enc "usa", enc "united states", enc "us", enc "canada", enc "uk", enc "united kingdom"
  , enc "germany", enc "france", enc "spain", enc "italy", enc "netherlands", enc "sweden"
  , enc "norway", enc "denmark", enc "switzerland", enc "australia", enc "new zealand"
  , enc "japan", enc "singapore", enc "india", enc "china", enc "brazil", enc "mexico"
  , enc "poland", enc "portugal", enc "belgium", enc "austria", enc "ireland"
  , enc "london", enc "berlin", enc "paris", enc "amsterdam", enc "barcelona", enc "madrid"
  , enc "stockholm", enc "oslo", enc "copenhagen", enc "zurich", enc "dublin", enc "edinburgh"
  , enc "vienna", enc "lisbon", enc "brussels", enc "warsaw", enc "milan", enc "rome"
  , enc "munich", enc "hamburg", enc "frankfurt", enc "lyon", enc "toulouse"
  , enc "tokyo", enc "singapore", enc "hong kong", enc "bangalore", enc "mumbai", enc "delhi"
  , enc "sydney", enc "melbourne", enc "beijing", enc "shanghai", enc "seoul", enc "taipei"
  , enc "europe", enc "north america", enc "south america", enc "asia", enc "australia"
  , enc "east coast", enc "west coast", enc "northeast", enc "southwest", enc "midwest" ]

/-- `LOCATION_NORMALIZE` (`src/utils/location_validator.py` lines 47-57). -/
def LOCATION_NORMALIZE : List (Str × Str) :=
  [ (enc "sf", enc "san francisco")
  , (enc "nyc", enc "new york")
  , (enc "la", enc "los angeles")
  , (enc "dc", enc "washington dc")
  , (enc "bay area", enc "san francisco")
  , (enc "silicon valley", enc "san francisco")
  , (enc "united states", enc "usa")
  , (enc "united kingdom", enc "uk")
  , (enc "us", enc "usa") ]

/-- `dict.get(key, default)` for the normalization map. -/
def mapGet (table : List (Str × Str)) (key : Str) (dflt : Str) : Str :=
  match table with
  | [] => dflt
  | (k, v) :: rest => if k = key then v else mapGet rest key dflt

/-- The `invalid_words` list of `is_valid_location`
(`src/utils/location_validator.py` lines 68-76). -/
def invalid_words : List Str :=
  [ enc "experience", enc "years", enc "role", enc "position", enc "job", enc "opportunity"
  , enc "company", enc "team", enc "work", enc "working", enc "looking", enc "seeking"
  , enc "hiring", enc "developer", enc "engineer", enc "software", enc "technical"
  , enc "skills", enc "requirements", enc "qualifications", enc "salary", enc "compensation"
  , enc "benefits", enc "equity", enc "stock", enc "options", enc "package", enc "offer"
  , enc "the", enc "and", enc "or", enc "for", enc "with", enc "from", enc "to", enc "at"
  , enc "in", enc "this", enc "that", enc "these", enc "those", enc "a", enc "an" ]

/-- The `valid_multi_word` list of `is_valid_location`
(`src/utils/location_validator.py` lines 82-85). -/
def valid_multi_word : List Str :=
  [ enc "san francisco", enc "new york", enc "los angeles", enc "san diego"
  , enc "salt lake city", enc "kansas city", enc "las vegas", enc "washington dc"
  , enc "hong kong", enc "new zealand", enc "south america", enc "north america"
  , enc "silicon valley", enc "bay area", enc "east coast", enc "west coast" ]

/-- `is_valid_location` (`src/utils/location_validator.py` lines 60-105). -/
def is_valid_location (location : Str) : Bool :=
  if location.length < 2 then false
  else
    let location_lower := pyLower location
    if decide (location_lower ∈ invalid_words) then false
    else
      let words := pySplit location_lower
      if decide (3 < words.length) && !decide (location_lower ∈ valid_multi_word) then false
      else if decide (50 < location.length) then false
      else if location.any isDigitChar then false
      else if decide (64 ∈ location) || strContains location_lower (enc ".com") then false
      else true

/-- `normalize_location` (`src/utils/location_validator.py` lines 108-111). -/
def normalize_location (location : Str) : Str :=
  let location_lower := pyLower location
  mapGet LOCATION_NORMALIZE location_lower location_lower

/-- `validate_and_normalize_location` (`src/utils/location_validator.py`
lines 114-132). -/
def validate_and_normalize_location (location : Str) : Option Str :=
  if location = [] then none
  else
    let location_lower := pyLower location
    let fallthrough :=
      let normalized := normalize_location location_lower
      if decide (normalized ∈ VALID_LOCATIONS) && is_valid_location normalized then
        some (pyTitle normalized)
      else none
    if decide (location_lower ∈ VALID_LOCATIONS) then
      let normalized := normalize_location location_lower
      if is_valid_location normalized then some (pyTitle normalized) else fallthrough
    else fallthrough

/-- **C7** — the location validator is a strict allowlist: any candidate
whose lowercased form is not in the whitelist and whose normalized form is
not in the whitelist maps to `None`; on the spec's examples,
`"Nowhereville"` is rejected, `"SF"` normalizes to `"San Francisco"`, and
`"3rd Street"` is rejected. -/
theorem claim7_location_allowlist :
    (∀ location : Str,
        pyLower location ∉ VALID_LOCATIONS →
        normalize_location (pyLower location) ∉ VALID_LOCATIONS →
        validate_and_normalize_location location = none)
    ∧ validate_and_normalize_location (enc "Nowhereville") = none
    ∧ validate_and_normalize_location (enc "SF") = some (enc "San Francisco")
    ∧ validate_and_normalize_location (enc "3rd Street") = none := by
  refine ⟨?_, by decide, by decide, by decide⟩
  intro location h1 h2
  have hn : normalize_location (pyLower location) ∉ VALID_LOCATIONS := h2
  unfold validate_and_normalize_location
  split
  · rfl
  · simp only [normalize_location, pyLower_idem] at hn ⊢
    simp [h1, hn]

/-- The `sentence_starters` list of `HNScraper._is_valid_company_name`
(`src/scrapers/hn_scraper.py` lines 163-173); `[39]` is the apostrophe. -/
def sentence_starters : List Str :=
  [ enc "we are", enc "we" ++ [39] ++ enc "re", enc "we", enc "our", enc "looking for"
  , enc "hiring", enc "seeking"
  , enc "are you", enc "do you", enc "want to", enc "join us", enc "come work"
  , enc "come join"
  , enc "at", enc "from", enc "help us", enc "we need", enc "we want", enc "we build"
  , enc "we make"
  , enc "we develop", enc "we create", enc "we help", enc "we focus", enc "we specialize"
  , enc "interested in", enc "if you", enc "when you", enc "as a", enc "as an"
  , enc "the role"
  , enc "this role", enc "this position", enc "the position", enc "this opportunity"
  , enc "hi ", enc "thanks", enc "thank you", enc "hello", enc "hey", enc "your"
  , enc "you" ++ [39] ++ enc "re"
  , enc "looks", enc "seems", enc "appears", enc "i" ++ [39] ++ enc "ve", enc "i have"
  , enc "i" ++ [39] ++ enc "m", enc "i am"
  , enc "we" ++ [39] ++ enc "ve", enc "we have", enc "we" ++ [39] ++ enc "re", enc "we are"
  , enc "they", enc "they" ++ [39] ++ enc "re", enc "they are" ]

/-- The `sentence_patterns` list of `HNScraper._is_valid_company_name`
(`src/scrapers/hn_scraper.py` lines 180-191). -/
def sentence_patterns : List Str :=
  [ enc "thanks for", enc "thank you for", enc "for your", enc "in this", enc "on this"
  , enc "to this", enc "of this", enc "this is", enc "this was", enc "this seems"
  , enc "this looks"
  , enc "because it", enc "because we", enc "because they", enc "seems to be"
  , enc "looks like"
  , enc "looks pretty", enc "we only", enc "we" ++ [39] ++ enc "ve", enc "we have"
  , enc "we" ++ [39] ++ enc "re", enc "we are"
  , enc "i think", enc "i believe", enc "i would", enc "i could", enc "i can", enc "i will"
  , enc "let me", enc "feel free", enc "please", enc "feel free to", enc "please contact"
  , enc "years of", enc "experience", enc "working with", enc "familiar with"
  , enc "the account", enc "the position", enc "the role", enc "the job", enc "the company"
  , enc "your comp", enc "your company", enc "your team", enc "your interest"
  , enc "allows", enc "allowing", enc "allow", enc "ban", enc "banned", enc "banning" ]

/-- The `verbs` list of `HNScraper._is_valid_company_name`
(`src/scrapers/hn_scraper.py` lines 197-200). -/
def verbs : List Str :=
  [ enc "are", enc "is", enc "was", enc "were", enc "have", enc "has", enc "had"
  , enc "do", enc "does"
  , enc "did", enc "can", enc "could", enc "will", enc "would", enc "should", enc "must"
  , enc "need"
  , enc "want", enc "looking", enc "seeking", enc "hiring", enc "recruiting", enc "thanks"
  , enc "thank", enc "allows", enc "allow", enc "seems", enc "looks", enc "appears"
  , enc "banned" ]

/-- The keyword list on line 216 of `src/scrapers/hn_scraper.py`. -/
def company_keywords : List Str :=
  [ enc "years of", enc "experience", enc "working with", enc "familiar with" ]

/-- `w[0].islower()` for a word produced by `split` (ASCII range). -/
def firstCharLower (w : Str) : Bool :=
  match w with
  | [] => false
  | c :: _ => decide (97 ≤ c ∧ c ≤ 122)

/-- `HNScraper._is_valid_company_name` (`src/scrapers/hn_scraper.py`
lines 151-243). -/
def is_valid_company_name (text : Str) : Bool :=
  if text.length < 2 then false
  else if 60 < text.length then false
  else
    let text_lower := pyLower text
    if sentence_starters.any (fun s => strStartsWith text_lower s) then false
    else if sentence_patterns.any (fun p => strContains text_lower p) then false
    else
      let words := pySplit text_lower
      if (match words with | [] => false | w0 :: _ => decide (w0 ∈ verbs)) then false
      else if decide (2 < words.length)
              && (words.take 3).any (fun w => decide (w ∈ verbs)) then false
      else if decide (8 < words.length) then false
      else if company_keywords.any (fun k => strContains text_lower k) then false
      else if decide (2 < text.countP (fun ch => decide (ch = 44)))
              || decide (1 < text.countP (fun ch => decide (ch = 46))) then false
      else
        let words_with_case := pySplit text
        if decide (2 < words_with_case.length)
            && decide (words_with_case.length < 2 * words_with_case.countP firstCharLower)
          then false
        else
          match text with
          | [] => true
          | c0 :: _ =>
              if isAlphaChar c0 && !decide (65 ≤ c0 ∧ c0 ≤ 90) then
                if decide (3 < words.length) then false else true
              else true

/-- **C8 counterexample** — the claim fails as stated: `"zz"` has one word,
all (hence more than half) of its words are lowercase-initial, yet the
plausibility check accepts it, because the code only applies the
more-than-half-lowercase rejection to inputs with more than two words. -/
theorem claim8_counterexample :
    is_valid_company_name (enc "zz") = true
    ∧ (pySplit (enc "zz")).length
        < 2 * (pySplit (enc "zz")).countP firstCharLower := by
  decide

/-- **C8 (amended)** — for every candidate string with more than two words
in which more than half of the words are lowercase-initial, the
company-name plausibility check rejects it. -/
theorem claim8_lowercase_words (t : Str)
    (h1 : 2 < (pySplit t).length)
    (h2 : (pySplit t).length < 2 * (pySplit t).countP firstCharLower) :
    is_valid_company_name t = false := by
  unfold is_valid_company_name
  repeat' split
  all_goals simp_all

/-- **C8 witness** — the amended theorem applied to the concrete input
`"aa bb cc"` (three words, all lowercase-initial). -/
theorem claim8_witness :
    2 < (pySplit (enc "aa bb cc")).length
    ∧ is_valid_company_name (enc "aa bb cc") = false :=
  ⟨by decide, claim8_lowercase_words (enc "aa bb cc") (by decide) (by decide)⟩

/-- **C9** — the company plausibility check on the spec's named examples:
the prose `"We are looking for talented engineers"` is rejected and the
proper noun `"Stripe"` is accepted. -/
theorem claim9_company_examples :
    is_valid_company_name (enc "We are looking for talented engineers") = false
    ∧ is_valid_company_name (enc "Stripe") = true := by
  constructor
  · decide
  · decide

/-- Longest-common-subsequence length, the combinatorial core of the indel
similarity computed by `rapidfuzz.fuzz.ratio`. -/
def lcsLen : Str → Str → Nat
  | [], _ => 0
  | _ :: _, [] => 0
  | a :: as, b :: bs =>
      if a = b then lcsLen as bs + 1
      else max (lcsLen (a :: as) bs) (lcsLen as (b :: bs))
termination_by x y => x.length + y.length
decreasing_by all_goals (simp [List.length_cons]; try omega)

/-- `rapidfuzz.fuzz.ratio(a, b)`: the normalized indel similarity in
percent, `100 * (1 - dist/(|a|+|b|))` with `dist = |a|+|b| - 2*lcs`, i.e.
`200*lcs/(|a|+|b|)`; `100` for two empty strings.  Computed over `ℚ`: the
library's floating-point arithmetic is modelled as exact. -/
def fuzz_ratio (a b : Str) : ℚ :=
  if a.length + b.length = 0 then 100
  else 200 * (lcsLen a b : ℚ) / ((a.length : ℚ) + (b.length : ℚ))

/-- One iteration of the `rapidfuzz` loop of `is_duplicate`
(`src/utils/deduplication.py` lines 29-45): full-key similarity at
`similarity_threshold`, or company similarity ≥ 0.95 together with title
similarity ≥ 0.7. -/
def fuzzyDup (similarity_threshold : ℚ) (new_job existing_job : JobPosting) : Bool :=
  let new_key := normCompany new_job ++ [124] ++ normTitle new_job
  let existing_key := normCompany existing_job ++ [124] ++ normTitle existing_job
  decide (similarity_threshold ≤ fuzz_ratio new_key existing_key / 100)
  || (decide ((95 : ℚ)/100 ≤ fuzz_ratio (normCompany new_job) (normCompany existing_job) / 100)
      && decide ((7 : ℚ)/10 ≤ fuzz_ratio (normTitle new_job) (normTitle existing_job) / 100))

/-- One iteration of the fallback loop of `is_duplicate`
(`src/utils/deduplication.py` lines 49-63): exact case-insensitive match on
company and title, or same company with one title a substring of the other. -/
def fallbackDup (new_job existing_job : JobPosting) : Bool :=
  (decide (normCompany new_job = normCompany existing_job)
    && decide (normTitle new_job = normTitle existing_job))
  || (decide (normCompany new_job = normCompany existing_job)
      && (decide (normTitle new_job <:+: normTitle existing_job)
          || decide (normTitle existing_job <:+: normTitle new_job)))

/-- The per-pair similarity check selected by `rapidfuzz` availability
(the `try/except ImportError` of `src/utils/deduplication.py`). -/
def similarityCheck (fuzzy : Bool) (similarity_threshold : ℚ) :
    JobPosting → JobPosting → Bool :=
  if fuzzy then fuzzyDup similarity_threshold else fallbackDup

/-- `is_duplicate` (`src/utils/deduplication.py` lines 5-65): scan
`existing_jobs`, returning `True` as soon as one matches. -/
def is_duplicate (fuzzy : Bool) (new_job : JobPosting)
    (existing_jobs : List JobPosting) (similarity_threshold : ℚ) : Bool :=
  existing_jobs.any (similarityCheck fuzzy similarity_threshold new_job)

/-- The loop of `deduplicate_jobs` (`src/utils/deduplication.py` lines
84-97), parameterized by the per-pair similarity check `c`: skip a job whose
id is in `seen_ids`, skip a job matching an accepted one, otherwise append
it and record its id. -/
def dedupAux (c : JobPosting → JobPosting → Bool) :
    List JobPosting → List JobPosting → List Str → List JobPosting
  | [], unique_jobs, _ => unique_jobs
  | job :: rest, unique_jobs, seen_ids =>
      if generate_id job ∈ seen_ids then dedupAux c rest unique_jobs seen_ids
      else if unique_jobs.any (c job) then dedupAux c rest unique_jobs seen_ids
      else dedupAux c rest (unique_jobs ++ [job]) (generate_id job :: seen_ids)

/-- `deduplicate_jobs` (`src/utils/deduplication.py` lines 68-99): early
return `[]` on an empty input, otherwise run the loop from empty state,
checking similarity with the default threshold 0.85. -/
def deduplicate_jobs (fuzzy : Bool) (jobs : List JobPosting) : List JobPosting :=
  if jobs = [] then [] else dedupAux (similarityCheck fuzzy (85/100)) jobs [] []

/-- The `is_duplicate` call inside the loop is exactly the accepted-list
scan the loop performs. -/
theorem is_duplicate_eq_any (fuzzy : Bool) (new_job : JobPosting)
    (existing_jobs : List JobPosting) (similarity_threshold : ℚ) :
    is_duplicate fuzzy new_job existing_jobs similarity_threshold
      = existing_jobs.any (similarityCheck fuzzy similarity_threshold new_job) := rfl

theorem dedupAux_append (c : JobPosting → JobPosting → Bool) :
    ∀ (L acc : List JobPosting) (seen : List Str),
      ∃ E, dedupAux c L acc seen = acc ++ E ∧ E.Sublist L := by
  intro L
  induction L with
  | nil => exact fun acc seen => ⟨[], by simp [dedupAux], List.nil_sublist _⟩
  | cons j rest ih =>
      intro acc seen
      simp only [dedupAux]
      split
      · obtain ⟨E, hE, hs⟩ := ih acc seen
        exact ⟨E, hE, hs.cons j⟩
      · split
        · obtain ⟨E, hE, hs⟩ := ih acc seen
          exact ⟨E, hE, hs.cons j⟩
        · obtain ⟨E, hE, hs⟩ := ih (acc ++ [j]) (generate_id j :: seen)
          exact ⟨j :: E, by simpa using hE, hs.cons₂ j⟩

/-- `AcceptChain c pre rest` says: processing `rest` after the already
accepted `pre`, every job of `rest` is accepted in turn (its id is fresh and
it matches no previously accepted job). -/
def AcceptChain (c : JobPosting → JobPosting → Bool) :
    List JobPosting → List JobPosting → Prop
  | _, [] => True
  | pre, job :: rest =>
      generate_id job ∉ pre.map generate_id ∧ pre.any (c job) = false
      ∧ AcceptChain c (pre ++ [job]) rest

theorem AcceptChain_snoc (c : JobPosting → JobPosting → Bool) (j : JobPosting) :
    ∀ (B A : List JobPosting), AcceptChain c A B →
      generate_id j ∉ (A ++ B).map generate_id → (A ++ B).any (c j) = false →
      AcceptChain c A (B ++ [j]) := by
  intro B
  induction B with
  | nil =>
      intro A h hid hany
      exact ⟨by simpa using hid, by simpa using hany, trivial⟩
  | cons b bs ih =>
      intro A h hid hany
      obtain ⟨h1, h2, h3⟩ := h
      refine ⟨h1, h2, ?_⟩
      apply ih
      · exact h3
      · simpa [List.append_assoc] using hid
      · simpa [List.append_assoc] using hany

theorem dedupAux_chain (c : JobPosting → JobPosting → Bool) :
    ∀ (L pre : List JobPosting) (seen : List Str),
      (∀ k, k ∈ seen ↔ k ∈ pre.map generate_id) → AcceptChain c [] pre →
      AcceptChain c [] (dedupAux c L pre seen) := by
  intro L
  induction L with
  | nil => intro pre seen _ hch; simpa [dedupAux] using hch
  | cons j rest ih =>
      intro pre seen hs hch
      simp only [dedupAux]
      split
      · exact ih pre seen hs hch
      · split
        · exact ih pre seen hs hch
        · next hseen hany =>
            apply ih
            · intro k
              simp only [List.mem_cons, hs, List.map_append, List.mem_append,
                List.map_cons, List.map_nil, List.mem_singleton]
              tauto
            · apply AcceptChain_snoc c j pre [] hch
              · simpa using fun hmem => hseen ((hs _).mpr hmem)
              · simpa using hany

theorem dedupAux_run_chain (c : JobPosting → JobPosting → Bool) :
    ∀ (rest pre : List JobPosting) (seen : List Str),
      (∀ k, k ∈ seen ↔ k ∈ pre.map generate_id) → AcceptChain c pre rest →
      dedupAux c rest pre seen = pre ++ rest := by
  intro rest
  induction rest with
  | nil => intro pre seen _ _; simp [dedupAux]
  | cons j rest' ih =>
      intro pre seen hs hch
      obtain ⟨h1, h2, h3⟩ := hch
      have hnid : ¬ generate_id j ∈ seen := fun hmem => h1 ((hs _).mp hmem)
      simp only [dedupAux]
      rw [if_neg hnid, if_neg (by simp [h2])]
      rw [ih (pre ++ [j]) (generate_id j :: seen) ?_ h3]
      · simp
      · intro k
        simp only [List.mem_cons, hs, List.map_append, List.mem_append,
          List.map_cons, List.map_nil, List.mem_singleton]
        tauto

theorem dedupAux_pairwise (c : JobPosting → JobPosting → Bool) :
    ∀ (L acc : List JobPosting) (seen : List Str),
      (∀ k, k ∈ seen ↔ k ∈ acc.map generate_id) →
      acc.Pairwise (fun a b => generate_id a ≠ generate_id b) →
      (dedupAux c L acc seen).Pairwise (fun a b => generate_id a ≠ generate_id b) := by
  intro L
  induction L with
  | nil => intro acc seen _ hpw; simpa [dedupAux] using hpw
  | cons j rest ih =>
      intro acc seen hs hpw
      simp only [dedupAux]
      split
      · exact ih acc seen hs hpw
      · split
        · exact ih acc seen hs hpw
        · next hseen _ =>
            apply ih
            · intro k
              simp only [List.mem_cons, hs, List.map_append, List.mem_append,
                List.map_cons, List.map_nil, List.mem_singleton]
              tauto
            · rw [List.pairwise_append]
              refine ⟨hpw, List.pairwise_singleton _ _, ?_⟩
              intro a ha b hb
              rw [List.mem_singleton] at hb
              subst hb
              intro heq
              exact hseen ((hs _).mpr (heq ▸ List.mem_map_of_mem generate_id ha))

/-- Two records agreeing on `company` and `title` have the same fingerprint. -/
theorem generate_id_congr {a b : JobPosting}
    (hc : a.company = b.company) (ht : a.title = b.title) :
    generate_id a = generate_id b := by
  simp [generate_id, normCompany, normTitle, hc, ht]

/-- No two records of a deduplicated list share a fingerprint (either
similarity strategy). -/
theorem deduplicate_pairwise_ids (fuzzy : Bool) (L : List JobPosting) :
    (deduplicate_jobs fuzzy L).Pairwise (fun a b => generate_id a ≠ generate_id b) := by
  unfold deduplicate_jobs
  split
  · simp
  · exact dedupAux_pairwise _ L [] [] (by simp) (by simp)

/-- **C10** — for every input list, the output of `deduplicate_jobs`
contains no two records with the same fingerprint: the `generate_id` values
of the output records are pairwise distinct (under either similarity
strategy), so the serialized `id` field is unique within any deduplicated
feed. -/
theorem claim10_unique_ids (fuzzy : Bool) (L : List JobPosting) :
    (deduplicate_jobs fuzzy L).Pairwise (fun a b => generate_id a ≠ generate_id b) :=
  deduplicate_pairwise_ids fuzzy L

/-- **C2** — deduplication is idempotent under either the fuzzy or the
fallback similarity check: `deduplicate_jobs fuzzy` applied twice equals one
application. -/
theorem claim2_idempotent (fuzzy : Bool) (L : List JobPosting) :
    deduplicate_jobs fuzzy (deduplicate_jobs fuzzy L) = deduplicate_jobs fuzzy L := by
  unfold deduplicate_jobs
  split
  · simp
  · set c := similarityCheck fuzzy (85/100) with hc
    have hch : AcceptChain c [] (dedupAux c L [] []) :=
      dedupAux_chain c L [] [] (by simp) trivial
    split
    · next h => exact h.symm
    · simpa using dedupAux_run_chain c (dedupAux c L [] []) [] [] (by simp) hch

/-- **C1** — `deduplicate_jobs` (under either similarity strategy) returns
an order-preserving subsequence of its input; no two output records share a
`(company, title)` pair; the first input record always survives; and for two
records with identical `(company, title)` differing only in `raw_text` and
`scraped_at`, exactly the earlier one survives. -/
theorem claim1_first_seen (fuzzy : Bool) (L : List JobPosting) :
    (deduplicate_jobs fuzzy L).Sublist L
    ∧ (deduplicate_jobs fuzzy L).Pairwise
        (fun a b => ¬(a.company = b.company ∧ a.title = b.title))
    ∧ (∀ j rest, L = j :: rest → ∃ E, deduplicate_jobs fuzzy L = j :: E)
    ∧ (∀ j1 j2 : JobPosting, j1.company = j2.company → j1.title = j2.title →
        j1.location = j2.location → j1.tech_stack = j2.tech_stack →
        j1.source = j2.source → j1.source_url = j2.source_url →
        j1.comment_id = j2.comment_id → j1.url = j2.url →
        j1.posted_date = j2.posted_date → j1.hidden_score = j2.hidden_score →
        deduplicate_jobs fuzzy [j1, j2] = [j1]) := by
  refine ⟨?_, ?_, ?_, ?_⟩
  · unfold deduplicate_jobs
    split
    · next h => subst h; exact List.Sublist.refl []
    · obtain ⟨E, hE, hs⟩ := dedupAux_append (similarityCheck fuzzy (85/100)) L [] []
      rw [hE]
      simpa using hs
  · exact (deduplicate_pairwise_ids fuzzy L).imp
      (fun hne hpair => hne (generate_id_congr hpair.1 hpair.2))
  · intro j rest hL
    subst hL
    unfold deduplicate_jobs
    rw [if_neg (by simp)]
    simp only [dedupAux, List.not_mem_nil, if_false, List.any_nil]
    obtain ⟨E, hE, _⟩ :=
      dedupAux_append (similarityCheck fuzzy (85/100)) rest [j] [generate_id j]
    exact ⟨E, by simpa using hE⟩
  · intro j1 j2 hcomp htitle _ _ _ _ _ _ _ _
    have hid : generate_id j2 = generate_id j1 :=
      generate_id_congr hcomp.symm htitle.symm
    unfold deduplicate_jobs
    rw [if_neg (by simp)]
    simp [dedupAux, hid]

/-- **C1 witness**: two concrete records with the same `(company, title)`
pair, differing only in `raw_text` and `scraped_at`, collapse to the
earlier one. -/
theorem claim1_witness :
    deduplicate_jobs true
        [ { company := enc "Acme Inc", title := enc "Backend Engineer", location := none
            tech_stack := [], raw_text := enc "first posting", source := enc "hn"
            source_url := enc "hn.example/a", scraped_at := 100, comment_id := none
            url := none, posted_date := none, hidden_score := none }
        , { company := enc "Acme Inc", title := enc "Backend Engineer", location := none
            tech_stack := [], raw_text := enc "second posting", source := enc "hn"
            source_url := enc "hn.example/a", scraped_at := 200, comment_id := none
            url := none, posted_date := none, hidden_score := none } ]
      = [ { company := enc "Acme Inc", title := enc "Backend Engineer", location := none
            tech_stack := [], raw_text := enc "first posting", source := enc "hn"
            source_url := enc "hn.example/a", scraped_at := 100, comment_id := none
            url := none, posted_date := none, hidden_score := none } ] :=
  (claim1_first_seen true []).2.2.2 _ _ rfl rfl rfl rfl rfl rfl rfl rfl rfl rfl

/-- **C6** — with the fuzzy library unavailable, `is_duplicate` returns
`True` exactly when some existing job matches the new one on both company
and title after lowercasing and trimming, or shares the lowercased trimmed
company while one of the two lowercased trimmed titles is a substring of
the other. -/
theorem claim6_fallback (new_job : JobPosting) (existing_jobs : List JobPosting)
    (similarity_threshold : ℚ) :
    is_duplicate false new_job existing_jobs similarity_threshold = true
      ↔ ∃ e ∈ existing_jobs,
          (normCompany new_job = normCompany e ∧ normTitle new_job = normTitle e)
          ∨ (normCompany new_job = normCompany e
              ∧ (normTitle new_job <:+: normTitle e
                  ∨ normTitle e <:+: normTitle new_job)) := by
  simp [is_duplicate, similarityCheck, fallbackDup, List.any_eq_true,
    Bool.or_eq_true, Bool.and_eq_true, decide_eq_true_iff, and_or_left]

/-- **C7 witness**: the allowlist-strictness implication applied to the
concrete input `"Nowhereville"`, whose lowercased and normalized forms are
both outside the whitelist. -/
theorem claim7_witness :
    pyLower (enc "Nowhereville") ∉ VALID_LOCATIONS
    ∧ validate_and_normalize_location (enc "Nowhereville") = none :=
  ⟨by decide,
   claim7_location_allowlist.1 (enc "Nowhereville") (by decide) (by decide)⟩
